import Mathlib

/-!
Shallow embedding of the spec-creator CLI (`src/main.py`) and proofs about it.

The program is a command-line conversational agent.  Its verifiable core is:
a conversation/session model with JSON snapshot + restore
(`ConversationState.save` / `ConversationState.load`), a retry executor for
remote calls (`SpecCreatorAgent._retry_operation`), a run-polling loop inside
`SpecCreatorAgent.send_message`, a spec-marker extractor
(`SpecCreatorAgent.extract_spec`), and the interactive main loop
(`SpecCreatorAgent.run`) with the cleanup path (`SpecCreatorAgent.cleanup`).

Python strings are modelled as `List Char` where character-level operations
matter and as `String` for opaque field values; machine effects (file
system, remote service, sleeping, logging) are modelled as explicit data in
the results of the embedded functions (trace fields counting log entries,
sleeps performed, remote fetches made, and so on).
-/

/-! Section: session data model (`ConversationState`, `src/main.py` lines 72-119) -/

/-- One conversation message as built by `ConversationState.add_message`:
a dict with keys `role`, `content`, `timestamp`. -/
structure Message where
  role : String
  content : String
  timestamp : String
deriving DecidableEq

/-- In-memory conversation state (the `ConversationState` dataclass). -/
structure ConversationState where
  messages : List Message
  thread_id : Option String
  agent_id : Option String
  created_at : String
  updated_at : String
deriving DecidableEq

/-- Embeds `ConversationState.add_message`: append one message and refresh
`updated_at`; `now` stands for `datetime.now().isoformat()`. -/
def ConversationState.add_message (s : ConversationState)
    (role content now : String) : ConversationState :=
  { s with
    messages := s.messages ++ [⟨role, content, now⟩]
    updated_at := now }

/-- JSON document written by `save` and read by `load`: a finite map whose
possible keys are exactly the five keys `save` writes.  Each field is
wrapped in an outer `Option` recording whether the key is present at all
(`load` reads every key with `dict.get` and a default, so a hand-edited file
may miss keys); for `thread_id` / `agent_id` the inner `Option` is JSON
`null` versus a string. -/
structure SessionFile where
  messages : Option (List Message)
  thread_id : Option (Option String)
  agent_id : Option (Option String)
  created_at : Option String
  updated_at : Option String
deriving DecidableEq

/-- Embeds `ConversationState.save` (lines 87-105): the JSON object dumped
to the session file, with all five keys present.  (The directory creation
and the timestamp-derived file name do not affect the document
contents.) -/
def ConversationState.save (s : ConversationState) : SessionFile :=
  { messages := some s.messages
    thread_id := some s.thread_id
    agent_id := some s.agent_id
    created_at := some s.created_at
    updated_at := some s.updated_at }

/-- Embeds `ConversationState.load` (lines 107-119): rebuild a state from a
parsed session file using `data.get(key, default)` semantics; `now` stands
for `datetime.now().isoformat()`, the default for the two timestamps. -/
def ConversationState.load (f : SessionFile) (now : String) : ConversationState :=
  { messages := f.messages.getD []
    thread_id := f.thread_id.getD none
    agent_id := f.agent_id.getD none
    created_at := f.created_at.getD now
    updated_at := f.updated_at.getD now }

/-! Section: Python string helpers used by `extract_spec` and the main loop -/

/-- ASCII whitespace characters removed by Python `str.strip()`. -/
def pyIsSpace (c : Char) : Bool :=
  c = ' ' || c = '\t' || c = '\n' || c = '\r' || c = '\x0b' || c = '\x0c'

/-- Python `str.strip()`: drop leading and trailing whitespace. -/
def pyStrip (l : List Char) : List Char :=
  ((l.dropWhile pyIsSpace).reverse.dropWhile pyIsSpace).reverse

/-- Python `str.lower()` (ASCII range, the only one the program compares). -/
def pyLower (l : List Char) : List Char :=
  l.map Char.toLower

/-- Python `str.find(needle)` returning the least index at which `needle`
occurs, as `Option Nat` (`none` models the Python value `-1`).  On the empty
haystack Python returns `0` exactly when the needle is empty. -/
def strFind : List Char → List Char → Option Nat
  | [], needle => if needle.isEmpty then some 0 else none
  | c :: t, needle =>
    if needle.isPrefixOf (c :: t) then some 0
    else (strFind t needle).map (· + 1)

/-- Opening marker literal `!!!SPEC_START!!!`. -/
def SPEC_START : List Char := "!!!SPEC_START!!!".toList

/-- Closing marker literal `!!!SPEC_END!!!`. -/
def SPEC_END : List Char := "!!!SPEC_END!!!".toList

/-- Embeds `SpecCreatorAgent.extract_spec` (lines 465-471): if both markers
occur (`in` on both literals), slice from just after the first occurrence
of the start marker to the first occurrence of the end marker and strip it;
otherwise `None`.  `content[start:end]` with `0 ≤ end ≤ start` is the empty
string in Python, matched here by truncated subtraction in `take`. -/
def extract_spec (content : List Char) : Option (List Char) :=
  if (strFind content SPEC_START).isSome && (strFind content SPEC_END).isSome then
    let start := (strFind content SPEC_START).getD 0 + SPEC_START.length
    let stop := (strFind content SPEC_END).getD 0
    some (pyStrip ((content.drop start).take (stop - start)))
  else
    none

/-! Section: retry executor (`SpecCreatorAgent._retry_operation`, lines 340-353) -/

/-- Python exception as seen by `_retry_operation`: either an `AzureError`
(the transient class caught by the `except` clause) or any other exception
(which the loop body does not catch). -/
inductive PyError where
  | azure (msg : String)
  | other (msg : String)
deriving DecidableEq

/-- Whether an exception is in the transient-failure class (`AzureError`). -/
def PyError.isAzure : PyError → Bool
  | .azure _ => true
  | .other _ => false

/-- Everything observable about one call of `_retry_operation`: the value
returned or exception raised, how many times the operation body ran, how
many failure log entries (`logger.warning`) were recorded, and the sleep
durations performed, in order. -/
structure RetryTrace (α : Type) where
  result : Except PyError α
  attempts : Nat
  warnings : Nat
  sleeps : List ℚ

/-- Embeds the `for attempt in range(1, max_retries + 1)` loop of
`_retry_operation`, recursing on the `remaining` iterations.  `attempt` is
the 1-based attempt counter; at every call `attempt + remaining =
maxRetries + 1`.  An `AzureError` from `op` is caught, logged, and (when
further attempts remain, i.e. `attempt < maxRetries`) followed by a sleep
of `retry_delay * attempt`; any other exception propagates at once.  When
the loop ends without returning, the last captured error is re-raised if
there is one, else a generic `RuntimeError` is raised. -/
def retryAux {α : Type} (name : String) (maxRetries : Nat) (retryDelay : ℚ)
    (op : Nat → Except PyError α) :
    Nat → Nat → Option PyError → Nat → List ℚ → RetryTrace α
  | attempt, 0, lastError, w, sl =>
    { result := .error (lastError.getD (.other (name ++ " failed with no error captured")))
      attempts := attempt - 1
      warnings := w
      sleeps := sl }
  | attempt, remaining + 1, _, w, sl =>
    match op attempt with
    | .ok a => { result := .ok a, attempts := attempt, warnings := w, sleeps := sl }
    | .error (.azure m) =>
      retryAux name maxRetries retryDelay op (attempt + 1) remaining
        (some (.azure m)) (w + 1)
        (if attempt < maxRetries then sl ++ [retryDelay * (attempt : ℚ)] else sl)
    | .error (.other m) =>
      { result := .error (.other m), attempts := attempt, warnings := w, sleeps := sl }

/-- Embeds `SpecCreatorAgent._retry_operation`: run `op` with up to
`maxRetries` attempts, starting at attempt 1 with no captured error.
`op i` is the outcome of the i-th invocation of the zero-argument
operation. -/
def _retry_operation {α : Type} (name : String) (maxRetries : Nat) (retryDelay : ℚ)
    (op : Nat → Except PyError α) : RetryTrace α :=
  retryAux name maxRetries retryDelay op 1 maxRetries none 0 []

/-! Section: run polling (`SpecCreatorAgent.send_message`, lines 430-459) -/

/-- Remote run object: its `status` string and optional `last_error`. -/
structure Run where
  status : String
  last_error : Option String
deriving DecidableEq

/-- Membership test `run.status in ["queued", "in_progress",
"requires_action"]` driving the `while` loop (line 433). -/
def nonTerminal (s : String) : Bool :=
  s == "queued" || s == "in_progress" || s == "requires_action"

/-- How the polling `while` loop of `send_message` ended.  `terminal` is a
normal exit of the loop (condition false); `shutdownExit` and `failedExit`
are the early `return None` paths inside the loop; `fuelOut` is a model
artifact for a status sequence that stays non-terminal beyond the supplied
fuel (the real loop would still be running). -/
inductive PollExit where
  | terminal (r : Run)
  | shutdownExit
  | failedExit (err : Option String)
  | fuelOut
deriving DecidableEq

/-- Embeds the polling loop (lines 433-442) over a scripted fetch function:
`get k` is the run returned by the (k+1)-th `runs.get` call.  Returns how
the loop ended together with the number of fetches performed.  Loop body
order follows the source: shutdown check, sleep, fetch, failed check, then
the `while` condition again. -/
def pollAux (get : Nat → Run) (sh : Nat → Bool) : Nat → Run → Nat → PollExit × Nat
  | 0, run, k =>
    if nonTerminal run.status then (.fuelOut, k) else (.terminal run, k)
  | fuel + 1, run, k =>
    if nonTerminal run.status then
      if sh k then (.shutdownExit, k)
      else
        let fetched := get k
        if fetched.status == "failed" then (.failedExit fetched.last_error, k + 1)
        else pollAux get sh fuel fetched (k + 1)
    else (.terminal run, k)

/-- Remote message as inspected at lines 448-457: its `role`, and the text
value `content[0].text.value` when the attribute chain is present. -/
structure RemoteMsg where
  role : String
  text : Option (List Char)
deriving DecidableEq

/-- Everything observable about the post-run-creation part of
`send_message`: the returned response (or `None`), the number of `runs.get`
fetches, the run errors surfaced to log/console (line 440-441), and whether
`messages.list` was called. -/
structure PhaseResult where
  response : Option (List Char)
  fetches : Nat
  surfaced : List (Option String)
  listed : Bool
deriving DecidableEq

/-- Embeds `send_message` from the run-creation result `r0` onward (lines
432-459): poll the run, then on `completed` list the messages (`msgs`,
newest first) and return the text of the newest message when it is an assistant
message with a text value; every other path returns `None`.  A run failure
observed by a fetch inside the loop is surfaced; note that no error is
surfaced on any other path. -/
def runPhase (get : Nat → Run) (sh : Nat → Bool) (fuel : Nat) (r0 : Run)
    (msgs : List RemoteMsg) : PhaseResult :=
  match pollAux get sh fuel r0 0 with
  | (.terminal r, k) =>
    if r.status == "completed" then
      match msgs with
      | m :: _ =>
        if m.role == "assistant" then
          match m.text with
          | some t => { response := some t, fetches := k, surfaced := [], listed := true }
          | none => { response := none, fetches := k, surfaced := [], listed := true }
        else { response := none, fetches := k, surfaced := [], listed := true }
      | [] => { response := none, fetches := k, surfaced := [], listed := true }
    else { response := none, fetches := k, surfaced := [], listed := false }
  | (.failedExit err, k) =>
    { response := none, fetches := k, surfaced := [err], listed := false }
  | (.shutdownExit, k) =>
    { response := none, fetches := k, surfaced := [], listed := false }
  | (.fuelOut, k) =>
    { response := none, fetches := k, surfaced := [], listed := false }

/-! Section: interactive main loop (`SpecCreatorAgent.run`, lines 526-563)
and cleanup (`SpecCreatorAgent.cleanup`, lines 481-498) -/

/-- How one iteration of the `while` body ends: `continueLoop` and
`breakLoop` are the Python `continue` / `break`; `raised e` is an uncaught
exception propagating out of the loop (the enclosing `try` has only a
`finally`, so the interactive loop terminates). -/
inductive StepOutcome where
  | continueLoop
  | breakLoop
  | raised (e : List Char)
deriving DecidableEq

/-- Everything observable about one iteration of the main loop body: the
conversation state afterwards, whether a session snapshot write completed,
how many remote-service operations were invoked, whether the spec file was
written, whether the reply was printed as ordinary conversational text, and
how the iteration ended. -/
structure StepResult where
  state : ConversationState
  sessionSaved : Bool
  remoteCalls : Nat
  specWritten : Bool
  printedReply : Bool
  outcome : StepOutcome
deriving DecidableEq

/-- Embeds one iteration of the main loop body (lines 528-563) on input
`input`.  `confirmExit` scripts `Confirm.ask`; `saveOutcome` scripts
`self.state.save` (the path returned, or the exception it raised — note
line 543 has no try/except around it); `send` scripts `self.send_message`,
returning the optional response, the state afterwards, and how many
remote-service operations it performed; `shutdownAfterSend` scripts the
`self._shutdown_requested` flag read at line 549.  The spec branch mirrors
the Python test `if spec_content:`, which is false both for `None` and for the
empty string. -/
def mainLoopStep (st : ConversationState) (input : List Char) (confirmExit : Bool)
    (saveOutcome : Except (List Char) (List Char))
    (send : ConversationState → Option (List Char) × ConversationState × Nat)
    (shutdownAfterSend : Bool) : StepResult :=
  if input = [] then ⟨st, false, 0, false, false, .continueLoop⟩
  else
    let command := pyStrip (pyLower input)
    if command = "exit".toList ∨ command = "quit".toList then
      if confirmExit then ⟨st, false, 0, false, false, .breakLoop⟩
      else ⟨st, false, 0, false, false, .continueLoop⟩
    else if command = "save".toList then
      match saveOutcome with
      | .ok _ => ⟨st, true, 0, false, false, .continueLoop⟩
      | .error e => ⟨st, false, 0, false, false, .raised e⟩
    else
      match send st with
      | (none, st2, calls) =>
        ⟨st2, false, calls, false, false,
          if shutdownAfterSend then .breakLoop else .continueLoop⟩
      | (some resp, st2, calls) =>
        match extract_spec resp with
        | some spec =>
          if spec = [] then ⟨st2, false, calls, false, true, .continueLoop⟩
          else ⟨st2, false, calls, true, false, .breakLoop⟩
        | none => ⟨st2, false, calls, false, true, .continueLoop⟩

/-- Everything observable about one call of `cleanup`: whether the agent
deletion completed, error log entries (`logger.error`, line 491), warning
log entries (`logger.warning`, line 498), whether the session snapshot
write completed, and whether the call raised. -/
structure CleanupResult where
  agentDeleted : Bool
  errorsLogged : Nat
  warningsLogged : Nat
  sessionSaved : Bool
  raised : Bool
deriving DecidableEq

/-- Embeds `SpecCreatorAgent.cleanup` (lines 481-498): the agent deletion
(when an agent and client exist) is wrapped in try/except logging an error;
the session save is wrapped in try/except logging a warning; neither
exception escapes. -/
def cleanup (hasAgent : Bool) (deleteOutcome : Except (List Char) Unit)
    (saveOutcome : Except (List Char) (List Char)) : CleanupResult :=
  let deletePart : Bool × Nat :=
    if hasAgent then
      match deleteOutcome with
      | .ok _ => (true, 0)
      | .error _ => (false, 1)
    else (false, 0)
  match saveOutcome with
  | .ok _ =>
    { agentDeleted := deletePart.1, errorsLogged := deletePart.2,
      warningsLogged := 0, sessionSaved := true, raised := false }
  | .error _ =>
    { agentDeleted := deletePart.1, errorsLogged := deletePart.2,
      warningsLogged := 1, sessionSaved := false, raised := false }

/-! Section: theorems.  Claim C1: save/load round trip. -/

/-- C1: for every session state, loading the JSON document produced by
`save` (with any "current time" used for defaulting) yields a state with
identical messages, thread/agent identifiers, and created/updated
timestamps: `load(save(s)) = s`. -/
theorem load_save_roundtrip (s : ConversationState) (now : String) :
    ConversationState.load (ConversationState.save s) now = s := rfl

/-! Claim C2: the spec-marker extractor. -/

/-- Helper: `strFind` computes the index of the first occurrence: if
`needle` is a prefix of `hay` dropped at `n` and at no earlier position,
then `strFind hay needle = some n`. -/
theorem strFind_of_first (hay : List Char) :
    ∀ (needle : List Char) (n : Nat),
      needle.isPrefixOf (hay.drop n) →
      (∀ m, m < n → ¬ needle.isPrefixOf (hay.drop m)) →
      strFind hay needle = some n := by
  induction hay with
  | nil =>
    intro needle n h1 h2
    simp only [List.drop_nil] at h1
    have hne : needle = [] := by
      cases needle with
      | nil => rfl
      | cons c t => simp [List.isPrefixOf] at h1
    have hn0 : n = 0 := by
      by_contra h
      exact h2 0 (Nat.pos_of_ne_zero h) (by simp [hne, List.isPrefixOf])
    subst hne hn0
    simp [strFind, List.isEmpty]
  | cons c t ih =>
    intro needle n h1 h2
    cases n with
    | zero =>
      simp only [List.drop_zero] at h1
      simp [strFind, h1]
    | succ m =>
      have h0 : ¬ needle.isPrefixOf (c :: t) := by
        have := h2 0 (Nat.succ_pos m)
        simpa using this
      have hrec : strFind t needle = some m := by
        apply ih needle m
        · exact h1
        · intro j hj
          have := h2 (j + 1) (by omega)
          simpa using this
      simp [strFind, h0, hrec]

/-- C2: `extract_spec` returns `none` for text missing either marker; and
when the text decomposes as `pre ++ SPEC_START ++ mid ++ SPEC_END ++ post`
with no earlier occurrence of either marker (so the first occurrence of the
start marker is at `pre.length` and the first occurrence of the end marker
is at `pre.length + SPEC_START.length + mid.length`), it returns exactly
the interior `mid` stripped of leading and trailing whitespace. -/
theorem extract_spec_markers :
    (∀ content : List Char,
      ¬((strFind content SPEC_START).isSome ∧ (strFind content SPEC_END).isSome) →
      extract_spec content = none)
  ∧ (∀ pre mid post : List Char,
      (∀ m, m < pre.length →
        ¬ SPEC_START.isPrefixOf ((pre ++ SPEC_START ++ mid ++ SPEC_END ++ post).drop m)) →
      (∀ m, m < pre.length + SPEC_START.length + mid.length →
        ¬ SPEC_END.isPrefixOf ((pre ++ SPEC_START ++ mid ++ SPEC_END ++ post).drop m)) →
      extract_spec (pre ++ SPEC_START ++ mid ++ SPEC_END ++ post) = some (pyStrip mid)) := by
  constructor
  · intro content h
    rw [extract_spec]
    rw [if_neg]
    intro hcon
    exact h (by simpa using hcon)
  · intro pre mid post hS hE
    set content := pre ++ SPEC_START ++ mid ++ SPEC_END ++ post with hcontent
    have hdropS : content.drop pre.length = SPEC_START ++ (mid ++ (SPEC_END ++ post)) := by
      rw [hcontent]
      have h := List.drop_left pre (SPEC_START ++ (mid ++ (SPEC_END ++ post)))
      simp only [List.append_assoc] at h ⊢
      exact h
    have hfS : strFind content SPEC_START = some pre.length := by
      apply strFind_of_first
      · rw [hdropS, List.isPrefixOf_iff_prefix]
        exact List.prefix_append _ _
      · exact hS
    have hdropE : content.drop (pre.length + SPEC_START.length + mid.length) =
        SPEC_END ++ post := by
      rw [hcontent]
      have : pre ++ SPEC_START ++ mid ++ SPEC_END ++ post =
          (pre ++ (SPEC_START ++ mid)) ++ (SPEC_END ++ post) := by
        simp [List.append_assoc]
      rw [this]
      exact List.drop_left' (by simp [List.length_append, Nat.add_assoc])
    have hfE : strFind content SPEC_END =
        some (pre.length + SPEC_START.length + mid.length) := by
      apply strFind_of_first
      · rw [hdropE, List.isPrefixOf_iff_prefix]
        exact List.prefix_append _ _
      · exact hE
    have hdropMid : content.drop (pre.length + SPEC_START.length) =
        mid ++ (SPEC_END ++ post) := by
      rw [hcontent]
      have : pre ++ SPEC_START ++ mid ++ SPEC_END ++ post =
          (pre ++ SPEC_START) ++ (mid ++ (SPEC_END ++ post)) := by
        simp [List.append_assoc]
      rw [this]
      exact List.drop_left' (by simp [List.length_append])
    rw [extract_spec, hfS, hfE]
    simp only [Option.isSome_some, Bool.and_self, if_true, Option.getD_some]
    rw [hdropMid]
    have harith : pre.length + SPEC_START.length + mid.length -
        (pre.length + SPEC_START.length) = mid.length := by omega
    rw [harith, List.take_left mid (SPEC_END ++ post)]

/-- Witness for C2 at concrete inputs: `"hello"` (no markers) yields
`none`; `"ab!!!SPEC_START!!! hi !!!SPEC_END!!!z"` yields the stripped
interior. -/
theorem extract_spec_markers_witness :
    extract_spec ("hello".toList) = none ∧
    extract_spec ("ab".toList ++ SPEC_START ++ " hi ".toList ++ SPEC_END ++ "z".toList) =
      some ("hi".toList) := by
  constructor
  · exact extract_spec_markers.1 ("hello".toList) (by decide)
  · have h := extract_spec_markers.2 ("ab".toList) (" hi ".toList) ("z".toList)
      (by decide) (by decide)
    rw [h]
    decide

/-! Claims C3, C4, C8: the retry executor. -/

/-- Helper: a sleep of `d * a` followed by the sleeps for attempts
`a + 1, …, a + m` is the list of sleeps for attempts `a, …, a + m`. -/
theorem append_singleton_map_range (sl : List ℚ) (d : ℚ) (a m : ℕ) :
    (sl ++ [d * (a : ℚ)]) ++ (List.range m).map (fun i => d * ((a + 1 + i : ℕ) : ℚ)) =
    sl ++ (List.range (m + 1)).map (fun i => d * ((a + i : ℕ) : ℚ)) := by
  rw [List.append_assoc, List.singleton_append]
  congr 1
  rw [List.range_succ_eq_map, List.map_cons, List.map_map]
  congr 1
  apply List.map_congr_left
  intro i _
  show d * ((a + 1 + i : ℕ) : ℚ) = d * ((a + (i + 1) : ℕ) : ℚ)
  push_cast
  ring

/-- Helper: if the operation fails with an `AzureError` on attempts
`attempt, …, attempt + m - 1` and succeeds on attempt `attempt + m`, and at
least `m + 1` loop iterations remain, the loop returns the success value
after exactly those attempts, with one warning per failure and one sleep of
`retryDelay * i` after each failed attempt `i`. -/
theorem retryAux_success {α : Type} (name : String) (N : ℕ) (d : ℚ)
    (op : Nat → Except PyError α) (msg : Nat → String) (v : α) :
    ∀ (m attempt remaining w : ℕ) (le : Option PyError) (sl : List ℚ),
      attempt + remaining = N + 1 → m < remaining →
      (∀ i, attempt ≤ i → i < attempt + m → op i = .error (.azure (msg i))) →
      op (attempt + m) = .ok v →
      retryAux name N d op attempt remaining le w sl =
        { result := .ok v, attempts := attempt + m, warnings := w + m,
          sleeps := sl ++ (List.range m).map (fun i => d * ((attempt + i : ℕ) : ℚ)) } := by
  intro m
  induction m with
  | zero =>
    intro attempt remaining w le sl hsum hlt hfail hsucc
    obtain ⟨r, rfl⟩ : ∃ r, remaining = r + 1 := ⟨remaining - 1, by omega⟩
    rw [Nat.add_zero] at hsucc
    simp [retryAux, hsucc]
  | succ m ih =>
    intro attempt remaining w le sl hsum hlt hfail hsucc
    obtain ⟨r, rfl⟩ : ∃ r, remaining = r + 1 := ⟨remaining - 1, by omega⟩
    have hop : op attempt = .error (.azure (msg attempt)) :=
      hfail attempt (Nat.le_refl attempt) (by omega)
    have hlt' : attempt < N := by omega
    have hrec := ih (attempt + 1) r (w + 1) (some (.azure (msg attempt)))
      (sl ++ [d * (attempt : ℚ)]) (by omega) (by omega)
      (fun i h1 h2 => hfail i (by omega) (by omega))
      (by rw [show attempt + 1 + m = attempt + (m + 1) from by omega]; exact hsucc)
    simp only [retryAux, hop, if_pos hlt']
    rw [hrec]
    rw [show attempt + 1 + m = attempt + (m + 1) from by omega,
      show w + 1 + m = w + (m + 1) from by omega,
      append_singleton_map_range sl d attempt m]

/-- Helper: if the operation fails with an `AzureError` on every remaining
attempt, the loop exhausts its `remaining ≥ 1` iterations and re-raises the
error captured on the final attempt (attempt `N`), having logged one
warning per attempt and slept after every attempt but the last. -/
theorem retryAux_exhaust {α : Type} (name : String) (N : ℕ) (d : ℚ)
    (op : Nat → Except PyError α) (msg : Nat → String) :
    ∀ (remaining attempt w : ℕ) (le : Option PyError) (sl : List ℚ),
      attempt + remaining = N + 1 → 1 ≤ remaining →
      (∀ i, attempt ≤ i → i ≤ N → op i = .error (.azure (msg i))) →
      retryAux name N d op attempt remaining le w sl =
        { result := .error (.azure (msg N)), attempts := N, warnings := w + remaining,
          sleeps := sl ++
            (List.range (remaining - 1)).map (fun i => d * ((attempt + i : ℕ) : ℚ)) } := by
  intro remaining
  induction remaining with
  | zero =>
    intro attempt w le sl hsum hge
    omega
  | succ r ih =>
    intro attempt w le sl hsum hge hfail
    have hop : op attempt = .error (.azure (msg attempt)) :=
      hfail attempt (Nat.le_refl attempt) (by omega)
    by_cases hr : r = 0
    · subst hr
      have hattempt : attempt = N := by omega
      subst hattempt
      simp [retryAux, hop]
    · have hlt' : attempt < N := by omega
      have hrec := ih (attempt + 1) (w + 1) (some (.azure (msg attempt)))
        (sl ++ [d * (attempt : ℚ)]) (by omega) (by omega)
        (fun i h1 h2 => hfail i (by omega) h2)
      simp only [retryAux, hop, if_pos hlt']
      rw [hrec]
      obtain ⟨r2, rfl⟩ : ∃ r2, r = r2 + 1 := ⟨r - 1, by omega⟩
      rw [show w + 1 + (r2 + 1) = w + (r2 + 1 + 1) from by omega]
      rw [show r2 + 1 - 1 = r2 from rfl, show r2 + 1 + 1 - 1 = r2 + 1 from rfl]
      rw [append_singleton_map_range sl d attempt r2]

/-- C3: an operation failing transiently on attempts `1..k` (with error
messages `msg i`) and succeeding on attempt `k + 1` makes the retry
executor (with `N` configured retries and delay `d`) return the success
value after `k + 1` attempts with exactly `k` failure log entries, sleeping
`d * i` after each failed attempt `i`, when `k < N`; and when `N ≤ k` (and
at least one attempt is configured) it propagates the error captured on the
last attempt `N` after exactly `N` attempts, never invoking the operation
again. -/
theorem retry_transient {α : Type} (name : String) (N k : ℕ) (d : ℚ)
    (op : Nat → Except PyError α) (msg : Nat → String) (v : α)
    (hfail : ∀ i, 1 ≤ i → i ≤ k → op i = .error (.azure (msg i)))
    (hsucc : op (k + 1) = .ok v) :
    (k < N → _retry_operation name N d op =
      { result := .ok v, attempts := k + 1, warnings := k,
        sleeps := (List.range k).map (fun i => d * ((1 + i : ℕ) : ℚ)) })
  ∧ (N ≤ k → 1 ≤ N → _retry_operation name N d op =
      { result := .error (.azure (msg N)), attempts := N, warnings := N,
        sleeps := (List.range (N - 1)).map (fun i => d * ((1 + i : ℕ) : ℚ)) }) := by
  constructor
  · intro hkN
    have h := retryAux_success name N d op msg v k 1 N 0 none [] (by omega) (by omega)
      (fun i h1 h2 => hfail i h1 (by omega))
      (by rw [show 1 + k = k + 1 from by omega]; exact hsucc)
    rw [_retry_operation, h]
    rw [show 1 + k = k + 1 from by omega, show (0 : ℕ) + k = k from by omega,
      List.nil_append]
  · intro hNk hN1
    have h := retryAux_exhaust name N d op msg N 1 0 none [] (by omega) (by omega)
      (fun i h1 h2 => hfail i h1 (by omega))
    rw [_retry_operation, h]
    rw [show (0 : ℕ) + N = N from by omega, List.nil_append]

/-- Witness for C3 at a concrete input: an operation failing once (with
`N = 3`, delay 2) succeeds on attempt 2 with one warning and one sleep
of 2. -/
theorem retry_transient_witness :
    _retry_operation "send" 3 2
      (fun i => if i = 1 then (.error (.azure "boom") : Except PyError ℕ) else .ok 42) =
      { result := .ok 42, attempts := 1 + 1, warnings := 1,
        sleeps := (List.range 1).map (fun i => (2 : ℚ) * ((1 + i : ℕ) : ℚ)) } := by
  have hfail : ∀ i, 1 ≤ i → i ≤ 1 →
      (fun i => if i = 1 then (.error (.azure "boom") : Except PyError ℕ) else .ok 42) i =
        .error (.azure ((fun _ => "boom") i)) := by
    intro i h1 h2
    have hi : i = 1 := by omega
    subst hi
    rfl
  exact (retry_transient "send" 3 1 2 _ (fun _ => "boom") 42 hfail rfl).1 (by omega)

/-- C4: an operation raising an error outside the transient class
(`AzureError`) on its first execution makes the retry executor (configured
for at least one attempt) propagate that error immediately: exactly one
attempt, no failure log entry, no sleep. -/
theorem retry_nontransient {α : Type} (name : String) (N : ℕ) (d : ℚ)
    (op : Nat → Except PyError α) (e : PyError)
    (he : e.isAzure = false) (h1 : op 1 = .error e) (hN : 1 ≤ N) :
    _retry_operation name N d op =
      { result := .error e, attempts := 1, warnings := 0, sleeps := [] } := by
  obtain ⟨n, rfl⟩ : ∃ n, N = n + 1 := ⟨N - 1, by omega⟩
  cases e with
  | azure m => simp [PyError.isAzure] at he
  | other m => simp [_retry_operation, retryAux, h1]

/-- Witness for C4 at a concrete input: a non-Azure error on attempt 1 with
`N = 3` propagates at once. -/
theorem retry_nontransient_witness :
    _retry_operation "send" 3 2 (fun _ => (.error (.other "type") : Except PyError ℕ)) =
      { result := .error (.other "type"), attempts := 1, warnings := 0, sleeps := [] } :=
  retry_nontransient "send" 3 2 _ (.other "type") rfl rfl (by omega)

/-- Helper: whatever the retry loop raises or returns was produced by some
invocation of the operation, provided any already-captured error was and at
least one iteration remains when nothing is captured yet. -/
theorem retryAux_result_origin {α : Type} (name : String) (N : ℕ) (d : ℚ)
    (op : Nat → Except PyError α) :
    ∀ (remaining attempt w : ℕ) (le : Option PyError) (sl : List ℚ),
      (le = none → 1 ≤ remaining) →
      (∀ e, le = some e → ∃ i, op i = .error e) →
      (∃ i a, op i = .ok a ∧
        (retryAux name N d op attempt remaining le w sl).result = .ok a) ∨
      (∃ i e, op i = .error e ∧
        (retryAux name N d op attempt remaining le w sl).result = .error e) := by
  intro remaining
  induction remaining with
  | zero =>
    intro attempt w le sl hne hcap
    cases le with
    | none => exact absurd (hne rfl) (by omega)
    | some e =>
      obtain ⟨i, hi⟩ := hcap e rfl
      exact Or.inr ⟨i, e, hi, by simp [retryAux]⟩
  | succ r ih =>
    intro attempt w le sl hne hcap
    cases hop : op attempt with
    | ok a => exact Or.inl ⟨attempt, a, hop, by simp [retryAux, hop]⟩
    | error e =>
      cases e with
      | azure m =>
        have hres := ih (attempt + 1) (w + 1) (some (.azure m))
          (if attempt < N then sl ++ [d * (attempt : ℚ)] else sl)
          (fun h => Option.noConfusion h)
          (fun e2 he2 => by
            refine ⟨attempt, ?_⟩
            rw [hop]
            injection he2 with h2
            rw [h2])
        simpa only [retryAux, hop] using hres
      | other m => exact Or.inr ⟨attempt, .other m, hop, by simp [retryAux, hop]⟩

/-- C8: with the retry count configured to zero the loop body never runs,
so no error is captured and the executor raises the generic fallback error
(independently of the operation) after zero attempts; with at least one
configured attempt, on exhaustion the executor raises the error captured on
the last attempt, and in general everything it returns or raises was
produced by some invocation of the operation — so the generic-error branch
is reachable exactly in the zero-attempt configuration. -/
theorem retry_exhaustion_fallback {α : Type} :
    (∀ (name : String) (d : ℚ) (op : Nat → Except PyError α),
      _retry_operation name 0 d op =
        { result := .error (.other (name ++ " failed with no error captured")),
          attempts := 0, warnings := 0, sleeps := [] })
  ∧ (∀ (name : String) (N : ℕ) (d : ℚ) (op : Nat → Except PyError α) (msg : Nat → String),
      1 ≤ N → (∀ i, 1 ≤ i → i ≤ N → op i = .error (.azure (msg i))) →
      (_retry_operation name N d op).result = .error (.azure (msg N)))
  ∧ (∀ (name : String) (N : ℕ) (d : ℚ) (op : Nat → Except PyError α),
      1 ≤ N →
      ((∃ i a, op i = .ok a ∧ (_retry_operation name N d op).result = .ok a) ∨
       (∃ i e, op i = .error e ∧ (_retry_operation name N d op).result = .error e))) := by
  refine ⟨fun name d op => rfl, fun name N d op msg hN hfail => ?_, fun name N d op hN => ?_⟩
  · rw [_retry_operation,
      retryAux_exhaust name N d op msg N 1 0 none [] (by omega) (by omega)
        (fun i h1 h2 => hfail i h1 h2)]
  · exact retryAux_result_origin name N d op N 1 0 none []
      (fun _ => hN) (fun e he => Option.noConfusion he)

/-- Witness for C8 at concrete inputs: with retry count 0 the generic
fallback is raised without running the operation; with retry count 1 and an
always-failing operation the captured error is raised. -/
theorem retry_exhaustion_fallback_witness :
    _retry_operation "create" 0 (2 : ℚ) (fun _ => (.ok 7 : Except PyError ℕ)) =
      { result := .error (.other ("create" ++ " failed with no error captured")),
        attempts := 0, warnings := 0, sleeps := [] } ∧
    (_retry_operation "create" 1 (2 : ℚ)
      (fun _ => (.error (.azure "boom") : Except PyError ℕ))).result =
      .error (.azure "boom") := by
  constructor
  · exact retry_exhaustion_fallback.1 "create" 2 _
  · exact retry_exhaustion_fallback.2.1 "create" 1 2 _ (fun _ => "boom") (by omega)
      (fun i h1 h2 => rfl)

/-! Claim C5: the run-polling loop. -/

/-- Helper: with the current status outside the non-terminal set the
`while` condition is false, so the loop exits at once with no fetch. -/
theorem pollAux_stopped (get : Nat → Run) (sh : Nat → Bool) (fuel : Nat)
    (r : Run) (k : Nat) (h : nonTerminal r.status = false) :
    pollAux get sh fuel r k = (.terminal r, k) := by
  cases fuel with
  | zero => simp [pollAux, h]
  | succ f => simp [pollAux, h]

/-- Helper: with no shutdown requested, a normal loop exit only happens
with a status outside the non-terminal set. -/
theorem pollAux_terminal_status (get : Nat → Run) :
    ∀ (fuel : Nat) (r : Run) (k : Nat) (r2 : Run) (k2 : Nat),
      pollAux get (fun _ => false) fuel r k = (.terminal r2, k2) →
      nonTerminal r2.status = false := by
  intro fuel
  induction fuel with
  | zero =>
    intro r k r2 k2 heq
    by_cases h : nonTerminal r.status
    · simp [pollAux, h] at heq
    · simp [pollAux, h] at heq
      rw [← heq.1]
      simpa using h
  | succ f ih =>
    intro r k r2 k2 heq
    by_cases h : nonTerminal r.status
    · by_cases hf : (get k).status == "failed"
      · simp [pollAux, h, hf] at heq
      · simp only [pollAux, h, if_true, Bool.false_eq_true, if_false, hf] at heq
        exact ih (get k) (k + 1) r2 k2 heq
    · simp [pollAux, h] at heq
      rw [← heq.1]
      simpa using h

/-- C5: the polling loop exits normally exactly when the current status is
outside the non-terminal set {queued, in_progress, requires_action} — a
status outside the set exits at once with no further fetch, and (absent
shutdown) a normal exit can only carry such a status; and on the scripted
status sequence queued (from creation), then in_progress and completed
(from fetches), the loop returns after exactly two fetches. -/
theorem poll_loop_exit :
    (∀ (get : Nat → Run) (sh : Nat → Bool) (fuel : Nat) (r : Run) (k : Nat),
      nonTerminal r.status = false → pollAux get sh fuel r k = (.terminal r, k))
  ∧ (∀ (get : Nat → Run) (fuel : Nat) (r : Run) (k : Nat) (r2 : Run) (k2 : Nat),
      pollAux get (fun _ => false) fuel r k = (.terminal r2, k2) →
      nonTerminal r2.status = false)
  ∧ (pollAux
      (fun k => if k = 0 then ⟨"in_progress", none⟩ else ⟨"completed", none⟩)
      (fun _ => false) 10 ⟨"queued", none⟩ 0 =
      (.terminal ⟨"completed", none⟩, 2)) := by
  refine ⟨pollAux_stopped, pollAux_terminal_status, ?_⟩
  decide

/-- Witness for C5 at a concrete input: a run already `completed` exits the
loop with zero fetches. -/
theorem poll_loop_exit_witness :
    pollAux (fun _ => Run.mk "completed" none) (fun _ => false) 3
      ⟨"completed", none⟩ 4 = (.terminal ⟨"completed", none⟩, 4) :=
  poll_loop_exit.1 (fun _ => Run.mk "completed" none) (fun _ => false) 3
    ⟨"completed", none⟩ 4 (by decide)

/-! Claim C6: handling of a failed run.  The claim as stated is refuted:
when run creation itself returns a run already in the `failed` state, the
`while` condition at line 433 is false, the loop body (and with it the
error reporting at lines 440-441) never executes, and control falls through
the `completed` check to `return None` at line 459 — the remote-reported
error is never surfaced. -/

/-- Counterexample to C6: a run whose creation already returned status
`failed` with a remote-reported error aborts the turn (response `None`, no
message fetch), but surfaces nothing: the list of surfaced errors is empty,
contradicting the claim that the error is reported. -/
theorem run_failed_at_creation_silent :
    runPhase (fun _ => ⟨"completed", none⟩) (fun _ => false) 10
      ⟨"failed", some "server exploded"⟩ [] =
      { response := none, fetches := 0, surfaced := [], listed := false } := by
  decide

/-- C6 amended: when a run failure is observed by a fetch inside the
polling loop, the error is surfaced, the turn is aborted (response `None`,
no message fetch, no further poll of the run) and, back in the main loop, a
`None` response with no shutdown requested continues the interactive loop;
when run creation itself returns a run already in the `failed` state the
turn is likewise aborted with no message fetch and no poll, but no error is
surfaced. -/
theorem run_failed_handling :
    (∀ (get : Nat → Run) (sh : Nat → Bool) (fuel : Nat) (r0 : Run)
        (msgs : List RemoteMsg) (err : Option String) (k : Nat),
      pollAux get sh fuel r0 0 = (.failedExit err, k) →
      runPhase get sh fuel r0 msgs =
        { response := none, fetches := k, surfaced := [err], listed := false })
  ∧ (∀ (get : Nat → Run) (sh : Nat → Bool) (fuel : Nat) (r0 : Run)
        (msgs : List RemoteMsg),
      r0.status = "failed" →
      runPhase get sh fuel r0 msgs =
        { response := none, fetches := 0, surfaced := [], listed := false })
  ∧ (∀ (st st2 : ConversationState) (input : List Char) (conf : Bool)
        (saveOutcome : Except (List Char) (List Char))
        (send : ConversationState → Option (List Char) × ConversationState × Nat)
        (calls : Nat),
      input ≠ [] →
      ¬(pyStrip (pyLower input) = "exit".toList ∨ pyStrip (pyLower input) = "quit".toList) →
      pyStrip (pyLower input) ≠ "save".toList →
      send st = (none, st2, calls) →
      mainLoopStep st input conf saveOutcome send false =
        ⟨st2, false, calls, false, false, .continueLoop⟩) := by
  refine ⟨?_, ?_, ?_⟩
  · intro get sh fuel r0 msgs err k h
    unfold runPhase
    rw [h]
  · intro get sh fuel r0 msgs h
    have hA := pollAux_stopped get sh fuel r0 0 (by rw [h]; decide)
    simp [runPhase, hA, h]
  · intro st st2 input conf saveOutcome send calls hin hcmd1 hcmd2 hsend
    simp only [mainLoopStep]
    rw [if_neg hin, if_neg hcmd1, if_neg hcmd2, hsend]
    rfl

/-- Witness for the amended C6 at concrete inputs: a queued run whose first
fetch reports `failed` with error `boom` surfaces exactly that error,
aborts with no message fetch, and performs no further poll. -/
theorem run_failed_handling_witness :
    runPhase (fun _ => ⟨"failed", some "boom"⟩) (fun _ => false) 5
      ⟨"queued", none⟩ [] =
      { response := none, fetches := 1, surfaced := [some "boom"], listed := false } :=
  run_failed_handling.1 (fun _ => ⟨"failed", some "boom"⟩) (fun _ => false) 5
    ⟨"queued", none⟩ [] (some "boom") 1 (by decide)

/-! Claims C7 and C9: the `save` command and persistence errors.  C7 as
stated is refuted: the `self.state.save(...)` call in the `save` branch of the main
loop (line 543) has no surrounding try/except, so an exception
there propagates out of the `while` loop (the enclosing `try` has only a
`finally`) and terminates the interactive loop; only the cleanup path
(lines 495-498) logs a warning and survives. -/

/-- Helper: the `save` command with a successful snapshot write saves the
session, leaves the state untouched, contacts no remote service, and
continues the loop. -/
theorem mainLoopStep_save_ok (st : ConversationState) (input : List Char)
    (conf : Bool) (p : List Char)
    (send : ConversationState → Option (List Char) × ConversationState × Nat)
    (sh : Bool) (hin : input ≠ [])
    (hcmd : pyStrip (pyLower input) = "save".toList) :
    mainLoopStep st input conf (.ok p) send sh =
      { state := st, sessionSaved := true, remoteCalls := 0, specWritten := false,
        printedReply := false, outcome := .continueLoop } := by
  have hne : ¬(pyStrip (pyLower input) = "exit".toList ∨
      pyStrip (pyLower input) = "quit".toList) := by
    rw [hcmd]
    decide
  simp only [mainLoopStep]
  rw [if_neg hin, if_neg hne, if_pos hcmd]

/-- Helper: the `save` command with a failing snapshot write raises out of
the loop body: the session is not saved and the outcome is an uncaught
exception. -/
theorem mainLoopStep_save_raises (st : ConversationState) (input : List Char)
    (conf : Bool) (e : List Char)
    (send : ConversationState → Option (List Char) × ConversationState × Nat)
    (sh : Bool) (hin : input ≠ [])
    (hcmd : pyStrip (pyLower input) = "save".toList) :
    mainLoopStep st input conf (.error e) send sh =
      { state := st, sessionSaved := false, remoteCalls := 0, specWritten := false,
        printedReply := false, outcome := .raised e } := by
  have hne : ¬(pyStrip (pyLower input) = "exit".toList ∨
      pyStrip (pyLower input) = "quit".toList) := by
    rw [hcmd]
    decide
  simp only [mainLoopStep]
  rw [if_neg hin, if_neg hne, if_pos hcmd]

/-- Counterexample to C7: a failing session write while handling the
user-invoked `save` command inside the main loop is not logged as a
warning and terminates the interactive loop — the iteration ends with the
exception propagating (`raised`), not with `continueLoop`. -/
theorem save_command_error_terminates :
    mainLoopStep ⟨[], none, none, "t0", "t0"⟩ ("save".toList) false
      (.error ("disk full".toList)) (fun s => (none, s, 0)) false =
      { state := ⟨[], none, none, "t0", "t0"⟩, sessionSaved := false, remoteCalls := 0,
        specWritten := false, printedReply := false,
        outcome := .raised ("disk full".toList) } := by
  decide

/-- C7 amended: a failure to write the session snapshot on the cleanup path
is logged as a warning and never raises out of `cleanup` (and a successful
save there logs none); but on the user-invoked `save` command inside the
main loop only a successful save continues the loop — a failing save
propagates its exception and terminates the interactive loop. -/
theorem persistence_error_handling :
    (∀ (hasAgent : Bool) (deleteOutcome : Except (List Char) Unit)
        (saveOutcome : Except (List Char) (List Char)),
      (cleanup hasAgent deleteOutcome saveOutcome).raised = false)
  ∧ (∀ (hasAgent : Bool) (deleteOutcome : Except (List Char) Unit) (e p : List Char),
      (cleanup hasAgent deleteOutcome (.error e)).warningsLogged = 1 ∧
      (cleanup hasAgent deleteOutcome (.ok p)).warningsLogged = 0)
  ∧ (∀ (st : ConversationState) (input : List Char) (conf : Bool) (p : List Char)
        (send : ConversationState → Option (List Char) × ConversationState × Nat)
        (sh : Bool),
      input ≠ [] → pyStrip (pyLower input) = "save".toList →
      mainLoopStep st input conf (.ok p) send sh =
        { state := st, sessionSaved := true, remoteCalls := 0, specWritten := false,
          printedReply := false, outcome := .continueLoop })
  ∧ (∀ (st : ConversationState) (input : List Char) (conf : Bool) (e : List Char)
        (send : ConversationState → Option (List Char) × ConversationState × Nat)
        (sh : Bool),
      input ≠ [] → pyStrip (pyLower input) = "save".toList →
      mainLoopStep st input conf (.error e) send sh =
        { state := st, sessionSaved := false, remoteCalls := 0, specWritten := false,
          printedReply := false, outcome := .raised e }) := by
  refine ⟨?_, ?_, ?_, ?_⟩
  · intro hasAgent deleteOutcome saveOutcome
    cases saveOutcome with
    | ok p => rfl
    | error e => rfl
  · intro hasAgent deleteOutcome e p
    exact ⟨rfl, rfl⟩
  · intro st input conf p send sh hin hcmd
    exact mainLoopStep_save_ok st input conf p send sh hin hcmd
  · intro st input conf e send sh hin hcmd
    exact mainLoopStep_save_raises st input conf e send sh hin hcmd

/-- Witness for the amended C7 at concrete inputs: a failing save during
cleanup does not raise and logs one warning; a successful save in the `save`
branch of the main loop continues the loop. -/
theorem persistence_error_handling_witness :
    (cleanup true (.error ("net down".toList)) (.error ("disk".toList))).raised = false ∧
    (cleanup true (.ok ()) (.error ("disk".toList))).warningsLogged = 1 ∧
    mainLoopStep ⟨[], none, none, "t0", "t0"⟩ (" SAVE ".toList) true
      (.ok ("p".toList)) (fun s => (none, s, 0)) true =
      { state := ⟨[], none, none, "t0", "t0"⟩, sessionSaved := true, remoteCalls := 0,
        specWritten := false, printedReply := false, outcome := .continueLoop } :=
  ⟨persistence_error_handling.1 true (.error ("net down".toList)) (.error ("disk".toList)),
   (persistence_error_handling.2.1 true (.ok ()) ("disk".toList) ("p".toList)).1,
   persistence_error_handling.2.2.1 ⟨[], none, none, "t0", "t0"⟩ (" SAVE ".toList) true
     ("p".toList) (fun s => (none, s, 0)) true (by decide) (by decide)⟩

/-- C9: entering the reserved input `save` (after lowering and stripping)
with a successful snapshot write produces a session file, leaves the
session state — in particular its message list — unchanged, invokes no
remote-service operation, and continues the loop. -/
theorem save_command_frame (st : ConversationState) (input : List Char)
    (conf : Bool) (p : List Char)
    (send : ConversationState → Option (List Char) × ConversationState × Nat)
    (sh : Bool) (hin : input ≠ [])
    (hcmd : pyStrip (pyLower input) = "save".toList) :
    mainLoopStep st input conf (.ok p) send sh =
      { state := st, sessionSaved := true, remoteCalls := 0, specWritten := false,
        printedReply := false, outcome := .continueLoop } ∧
    (mainLoopStep st input conf (.ok p) send sh).state.messages = st.messages :=
  ⟨mainLoopStep_save_ok st input conf p send sh hin hcmd,
   by rw [mainLoopStep_save_ok st input conf p send sh hin hcmd]⟩

/-- Witness for C9 at a concrete input: the input `Save` saves the session,
keeps the two-message state intact, and makes no remote call. -/
theorem save_command_frame_witness :
    mainLoopStep ⟨[⟨"user", "hi", "t1"⟩], some "th", some "ag", "t0", "t1"⟩
      ("Save".toList) true (.ok ("path".toList)) (fun s => (some [], s, 3)) false =
      { state := ⟨[⟨"user", "hi", "t1"⟩], some "th", some "ag", "t0", "t1"⟩,
        sessionSaved := true, remoteCalls := 0, specWritten := false,
        printedReply := false, outcome := .continueLoop } :=
  (save_command_frame ⟨[⟨"user", "hi", "t1"⟩], some "th", some "ag", "t0", "t1"⟩
    ("Save".toList) true ("path".toList) (fun s => (some [], s, 3)) false
    (by decide) (by decide)).1

/-! Claim C10: empty extraction is treated like a missing spec. -/

/-- C10: whenever both marker literals occur in the text, `extract_spec`
returns a string (never `none`); when the first occurrence of the end
marker does not come after the first occurrence of the start marker the
returned string is empty; and the orchestrator treats an extracted empty
string exactly like a missing spec — the reply is printed as ordinary
conversational text, no spec file is written, and the loop continues. -/
theorem extract_empty_treated_as_missing :
    (∀ content : List Char,
      (strFind content SPEC_START).isSome → (strFind content SPEC_END).isSome →
      (extract_spec content).isSome)
  ∧ (∀ (content : List Char) (s e : Nat),
      strFind content SPEC_START = some s → strFind content SPEC_END = some e →
      e ≤ s → extract_spec content = some [])
  ∧ (∀ (st st2 : ConversationState) (input resp : List Char) (conf : Bool)
        (saveOutcome : Except (List Char) (List Char))
        (send : ConversationState → Option (List Char) × ConversationState × Nat)
        (calls : Nat),
      input ≠ [] →
      ¬(pyStrip (pyLower input) = "exit".toList ∨ pyStrip (pyLower input) = "quit".toList) →
      pyStrip (pyLower input) ≠ "save".toList →
      send st = (some resp, st2, calls) →
      extract_spec resp = some [] →
      mainLoopStep st input conf saveOutcome send false =
        ⟨st2, false, calls, false, true, .continueLoop⟩) := by
  refine ⟨?_, ?_, ?_⟩
  · intro content h1 h2
    simp [extract_spec, h1, h2]
  · intro content s e hS hE hle
    rw [extract_spec, hS, hE]
    simp only [Option.isSome_some, Bool.and_self, if_true, Option.getD_some]
    rw [Nat.sub_eq_zero_of_le (Nat.le_trans hle (Nat.le_add_right s SPEC_START.length))]
    rw [List.take_zero]
    rfl
  · intro st st2 input resp conf saveOutcome send calls hin hcmd1 hcmd2 hsend hempty
    simp only [mainLoopStep]
    rw [if_neg hin, if_neg hcmd1, if_neg hcmd2, hsend]
    show (match extract_spec resp with
      | some spec =>
        if spec = [] then
          (⟨st2, false, calls, false, true, StepOutcome.continueLoop⟩ : StepResult)
        else ⟨st2, false, calls, true, false, StepOutcome.breakLoop⟩
      | none => ⟨st2, false, calls, false, true, StepOutcome.continueLoop⟩) =
      ⟨st2, false, calls, false, true, StepOutcome.continueLoop⟩
    rw [hempty]
    rfl

/-- Witness for C10 at concrete inputs: with the end marker first,
extraction yields the empty string; and a reply whose markers enclose
nothing is printed as ordinary text with no spec file written and the loop
continuing. -/
theorem extract_empty_treated_as_missing_witness :
    extract_spec (SPEC_END ++ "xy".toList ++ SPEC_START) = some [] ∧
    mainLoopStep ⟨[], none, none, "t0", "t0"⟩ ("go".toList) false (.ok ("p".toList))
      (fun s => (some (SPEC_START ++ SPEC_END), s, 2)) false =
      ⟨⟨[], none, none, "t0", "t0"⟩, false, 2, false, true, .continueLoop⟩ :=
  ⟨extract_empty_treated_as_missing.2.1 (SPEC_END ++ "xy".toList ++ SPEC_START) 16 0
    (by decide) (by decide) (by decide),
   extract_empty_treated_as_missing.2.2 ⟨[], none, none, "t0", "t0"⟩
     ⟨[], none, none, "t0", "t0"⟩ ("go".toList) (SPEC_START ++ SPEC_END) false
     (.ok ("p".toList)) (fun s => (some (SPEC_START ++ SPEC_END), s, 2)) 2
     (by decide) (by decide) (by decide) rfl (by decide)⟩
